import Mathlib

/-!
Verification development for the `tessif-examples` repository.

The repository consists of two Python modules that build example energy
systems for the external `tessif` framework:

* `src/tessif_examples/basic/zero_costs_es.py` defining `create_zero_costs_es`;
* `src/tessif_examples/data/examples/application/timeseries_comparison.py`
  defining the module level constants `periods` and `RANDTS`, the helper
  `norm`, and the builders `create_hhes_ar` and `create_hhes_basic`.

The development below is a shallow embedding of those modules.  Component
records mirror exactly the keyword arguments the source passes to the
framework constructors (`components.Source`, `components.Sink`,
`components.Transformer`, `components.Storage`, `components.Bus`,
`energy_system.AbstractEnergySystem`).  Numeric values are rationals; the
value `float("+inf")` is embedded as `ExtQ.inf`.  CSV files read by the
builders are abstracted as lists of rationals (one list per file/column the
source selects); the global numpy random generator is abstracted as a
function `Rng` that is passed to the builders of the `timeseries_comparison`
module, mirroring the ambient `np.random` state available to that code.
The persistence side effect (`AbstractEnergySystem.dump`) of the external
framework is modelled, from the specification, as a pure write into an
association-list store.
-/

namespace Tessif

/-- A numeric value of the examples: either a finite rational or the Python
value `float("+inf")`. -/
inductive ExtQ where
  | fin (q : ℚ)
  | inf
deriving DecidableEq, Repr

/-- Embedding of `tessif.namedtuples.MinMax`. -/
structure MinMax (α : Type) where
  min : α
  max : α
deriving DecidableEq, Repr

/-- Embedding of `tessif.namedtuples.OnOff` (positional fields `on`, `off`;
`on` is a Lean keyword, hence the `_val` suffix). -/
structure OnOff (α : Type) where
  on_val : α
  off_val : α
deriving DecidableEq, Repr

/-- A value of a `global_constraints` dictionary: the examples store both
strings (the `"name"` entry) and numbers (`"emissions"`, `"resources"`). -/
inductive GCVal where
  | num (x : ExtQ)
  | str (s : String)
deriving DecidableEq, Repr

/-- Record mirroring the keyword arguments this repository passes to
`components.Source`.  Options not passed by a given call keep their
defaults (empty). -/
structure Source where
  name : String
  outputs : List String
  region : String := ""
  node_type : String := ""
  component : String := ""
  sector : String := ""
  carrier : String := ""
  flow_rates : List (String × MinMax ExtQ) := []
  flow_costs : List (String × ℚ) := []
  flow_emissions : List (String × ℚ) := []
  timeseries : List (String × MinMax (List ℚ)) := []
  expandable : List (String × Bool) := []
  expendable : List (String × Bool) := []
  expansion_costs : List (String × ℚ) := []
  expansion_limits : List (String × MinMax ExtQ) := []
deriving DecidableEq, Repr

/-- Record mirroring the keyword arguments this repository passes to
`components.Sink`. -/
structure Sink where
  name : String
  inputs : List String
  region : String := ""
  node_type : String := ""
  component : String := ""
  sector : String := ""
  carrier : String := ""
  flow_rates : List (String × MinMax ExtQ) := []
  timeseries : List (String × MinMax (List ℚ)) := []
deriving DecidableEq, Repr

/-- Record mirroring the keyword arguments this repository passes to
`components.Transformer`. -/
structure Transformer where
  name : String
  inputs : List String
  outputs : List String
  conversions : List ((String × String) × ℚ) := []
  latitude : ℚ := 0
  longitude : ℚ := 0
  region : String := ""
  node_type : String := ""
  component : String := ""
  sector : String := ""
  carrier : String := ""
  flow_rates : List (String × MinMax ExtQ) := []
  flow_costs : List (String × ℚ) := []
  flow_emissions : List (String × ℚ) := []
  expandable : List (String × Bool) := []
  expansion_costs : List (String × ℚ) := []
  expansion_limits : List (String × MinMax ExtQ) := []
  initial_status : Bool := true
  status_inertia : OnOff ℚ := ⟨0, 0⟩
  status_changing_costs : OnOff ℚ := ⟨0, 0⟩
  costs_for_being_active : ℚ := 0
deriving DecidableEq, Repr

/-- Record mirroring the keyword arguments this repository passes to
`components.Storage`. -/
structure Storage where
  name : String
  input : String
  output : String
  capacity : ℚ
  initial_soc : ℚ
  region : String := ""
  sector : String := ""
  carrier : String := ""
  component : String := ""
  flow_rates : List (String × MinMax ExtQ) := []
  flow_costs : List (String × ℚ) := []
  flow_emissions : List (String × ℚ) := []
  expendable : List (String × Bool) := []
  expansion_costs : List (String × ℚ) := []
deriving DecidableEq, Repr

/-- Record mirroring the keyword arguments this repository passes to
`components.Bus`.  The `inputs`/`outputs` entries are string references of
the form `"<component-name>.<commodity>"`. -/
structure Bus where
  name : String
  inputs : List String
  outputs : List String
  region : String := ""
  node_type : String := ""
  component : String := ""
  sector : String := ""
  carrier : String := ""
deriving DecidableEq, Repr

/-- Embedding of `pandas.date_range(start, periods=periods, freq=freq)`:
the examples only ever use it as an ordered sequence of `periods` steps. -/
structure Timeframe where
  start : String
  periods : ℕ
  freq : String
deriving DecidableEq, Repr

/-- Record mirroring the keyword arguments this repository passes to
`energy_system.AbstractEnergySystem`.  `uid` is an `Option String` because
`create_hhes_basic` passes its (possibly `None`) `filename` argument as the
uid. -/
structure EnergySystem where
  uid : Option String
  busses : List Bus := []
  sinks : List Sink := []
  sources : List Source := []
  transformers : List Transformer := []
  storages : List Storage := []
  timeframe : Timeframe
  global_constraints : List (String × GCVal) := []
deriving DecidableEq, Repr

/-- The node labels of an energy system, ordered the way the repository's
doctests print `es.nodes` (busses, then sources, sinks, transformers,
storages). -/
def nodes (es : EnergySystem) : List String :=
  es.busses.map Bus.name ++ es.sources.map Source.name ++
  es.sinks.map Sink.name ++ es.transformers.map Transformer.name ++
  es.storages.map Storage.name

/-- Embedding of `np.max` / Python `max` on a nonempty list of numbers (the
examples only apply it to nonempty data; the empty case defaults to 0). -/
def np_max : List ℚ → ℚ
  | [] => 0
  | x :: xs => xs.foldl max x

/-- The abstract state of the global numpy random generator: a stream of
natural numbers the code may sample from. -/
def Rng : Type := ℕ → ℕ

/-- The persistent store targeted by the serialization step: an association
list from path to the serialized system.  Serialization is modelled as the
identity on the in-memory object, matching the specification's round-trip
law. -/
def World : Type := List (String × EnergySystem)

/-- Embedding of `os.path.join` on the two-argument uses of the sources. -/
def path_join (a b : String) : String := a ++ "/" ++ b

/-- Modelled from the spec: `tessif.frused.paths.write_dir`, the
configurable default output directory of the external framework. -/
def write_dir : String := "write_dir"

/-- Modelled from the spec: when `dump` receives no directory, the chosen
directory is `tessif.frused.paths.write_dir`/tsf (per the builder
docstrings). -/
def default_dump_dir : String := path_join write_dir "tsf"

/-- Modelled from the spec: `AbstractEnergySystem.dump(directory, filename)`
of the external framework.  It serializes the constructed system under the
given directory (defaulted when absent) and filename as a side effect on the
persistent store; it does not mutate the in-memory system. -/
def dump (es : EnergySystem) (directory : Option String) (filename : String)
    (w : World) : World :=
  (path_join (directory.getD default_dump_dir) filename, es) :: w

/-- Embedding of the Python `if not filename: filename = dflt` idiom used by
both dumping builders (`None` and the empty string are falsy). -/
def resolve_filename (dflt : String) : Option String → String
  | none => dflt
  | some s => if s = "" then dflt else s

/-! ## Embedding of `src/tessif_examples/basic/zero_costs_es.py` -/

/-- The source `Emitting Source` of `create_zero_costs_es`. -/
def emitting_source : Source :=
  { name := "Emitting Source"
    outputs := ["electricity"]
    flow_emissions := [("electricity", 1)] }

/-- The source `Capped Renewable` of `create_zero_costs_es`. -/
def capped_renewable : Source :=
  { name := "Capped Renewable"
    outputs := ["electricity"]
    flow_rates := [("electricity", ⟨ExtQ.fin 0, ExtQ.fin 2⟩)]
    expandable := [("electricity", true)]
    expansion_limits := [("electricity", ⟨ExtQ.fin 2, ExtQ.fin 4⟩)] }

/-- The list `uncapped_min` of `create_zero_costs_es`. -/
def uncapped_min : List ℚ := [1, 2, 3, 1]

/-- The list `uncapped_max` of `create_zero_costs_es`. -/
def uncapped_max : List ℚ := [1, 2, 3, 1]

/-- The source `Uncapped Renewable` of `create_zero_costs_es`. -/
def uncapped_renewable : Source :=
  { name := "Uncapped Renewable"
    outputs := ["electricity"]
    flow_rates := [("electricity", ⟨ExtQ.fin 0, ExtQ.fin 1⟩)]
    expandable := [("electricity", true)]
    timeseries := [("electricity", ⟨uncapped_min, uncapped_max⟩)]
    expansion_limits :=
      [("electricity", ⟨ExtQ.fin (np_max uncapped_max), ExtQ.inf⟩)] }

/-- The bus `Powerline` of `create_zero_costs_es`. -/
def electricity_line : Bus :=
  { name := "Powerline"
    inputs :=
      [ "Emitting Source.electricity"
      , "Capped Renewable.electricity"
      , "Uncapped Renewable.electricity" ]
    outputs := ["Demand.electricity"] }

/-- The sink `Demand` of `create_zero_costs_es`. -/
def demand : Sink :=
  { name := "Demand"
    inputs := ["electricity"]
    flow_rates := [("electricity", ⟨ExtQ.fin 10, ExtQ.fin 10⟩)] }

/-- The energy system built by `create_zero_costs_es`: a 4-step hourly
timeframe, one bus, one sink, three sources, and the global constraint
`{"emissions": 8}`. -/
def zero_costs_explicit_es : EnergySystem :=
  { uid := some "Zero Costs Example"
    busses := [electricity_line]
    sinks := [demand]
    sources := [emitting_source, capped_renewable, uncapped_renewable]
    timeframe := ⟨"7/13/1990", 4, "H"⟩
    global_constraints := [("emissions", GCVal.num (ExtQ.fin 8))] }

/-- Embedding of `create_zero_costs_es(directory=None, filename=None)`.  The
function body never reads `directory` or `filename` and contains no dump
call, so the store is returned untouched. -/
def create_zero_costs_es (directory filename : Option String) (w : World) :
    EnergySystem × World :=
  let _ := directory
  let _ := filename
  (zero_costs_explicit_es, w)

/-! ## Embedding of
`src/tessif_examples/data/examples/application/timeseries_comparison.py` -/

/-- Modelled from the spec: `oemof.tools.economics.annuity` of the external
`oemof` library, the standard annuity formula over capital expenditure,
lifetime `n` and interest rate `wacc`. -/
def annuity (capex : ℚ) (n : ℕ) (wacc : ℚ) : ℚ :=
  capex * (wacc * (1 + wacc) ^ n) / ((1 + wacc) ^ n - 1)

/-- The CSV time-series data read by the builders, abstracted as the lists
of numbers the source extracts from each file (`solar_HH_2019.csv` and
`wind_HH_2019.csv` flattened, the `"Last (MW)"` column of
`el_demand_HH_2019.csv`, the `"actual_total_load"` column of
`th_demand_HH_2019.csv`). -/
structure Csvs where
  solar : List ℚ
  wind : List ℚ
  el_demand : List ℚ
  th_demand : List ℚ
deriving DecidableEq, Repr

/-- The source `gas supply` (`gass`) of `create_hhes_ar`. -/
def gass : Source :=
  { name := "gas supply"
    outputs := ["gas"]
    region := "HH"
    node_type := "gas_supply"
    component := "source"
    sector := "coupled"
    carrier := "gas" }

/-- The transformer `gas power plant` (`chp1`, HKW ADM) of `create_hhes_ar`.
The locals `in_stat = False` and `cfba = 0` of the source are inlined. -/
def chp1 : Transformer :=
  { name := "gas power plant"
    inputs := ["gas"]
    outputs := ["electricity", "hot_water"]
    conversions :=
      [ (("gas", "electricity"), 0.3773)
      , (("gas", "hot_water"), 0.3) ]
    latitude := 53.51
    longitude := 9.94985
    region := "HH"
    node_type := "HKW ADM"
    component := "transformer"
    sector := "coupled"
    carrier := "gas"
    flow_rates :=
      [ ("gas", ⟨ExtQ.fin 0, ExtQ.inf⟩)
      , ("electricity", ⟨ExtQ.fin 0, ExtQ.inf⟩)
      , ("hot_water", ⟨ExtQ.fin 0, ExtQ.inf⟩) ]
    flow_costs := [("gas", 0), ("electricity", 90), ("hot_water", 21.6)]
    flow_emissions := [("gas", 0.2), ("electricity", 0), ("hot_water", 0)]
    initial_status := false
    status_inertia := ⟨0, 1⟩
    status_changing_costs := ⟨24, 0⟩
    costs_for_being_active := 0 }

/-- The transformer `heat power plant` (`hp1`, Heizwerk Hafencity) of
`create_hhes_ar`.  Note: its `conversions` key is `("waste", "hot_water")`
although its `inputs` declare only `"gas"`. -/
def hp1 : Transformer :=
  { name := "heat power plant"
    inputs := ["gas"]
    outputs := ["hot_water"]
    conversions := [(("waste", "hot_water"), 0.96666)]
    latitude := 53.54106052
    longitude := 9.99590096
    region := "HH"
    node_type := "Heizwerk Hafencity"
    component := "transformer"
    sector := "heat"
    carrier := "gas"
    flow_rates :=
      [ ("gas", ⟨ExtQ.fin 0, ExtQ.inf⟩)
      , ("hot_water", ⟨ExtQ.fin 0, ExtQ.fin 348⟩) ]
    flow_costs := [("gas", 0), ("hot_water", 20)]
    flow_emissions := [("gas", 0.0), ("hot_water", 0.2)]
    expandable := [("gas", false), ("hot_water", true)]
    expansion_costs := [("gas", 0), ("hot_water", 0)]
    expansion_limits :=
      [ ("gas", ⟨ExtQ.fin 0, ExtQ.inf⟩)
      , ("hot_water", ⟨ExtQ.fin 348, ExtQ.inf⟩) ] }

/-- The source `solar` (`pv1`) of `create_hhes_ar`, as a function of the
sliced solar series `pv_HH`. -/
def pv1 (pv_HH : List ℚ) : Source :=
  { name := "solar"
    outputs := ["electricity"]
    region := "HH"
    node_type := "renewable"
    component := "source"
    sector := "power"
    carrier := "solar"
    flow_rates := [("electricity", ⟨ExtQ.fin 0, ExtQ.fin (np_max pv_HH)⟩)]
    flow_costs := [("electricity", 74)]
    flow_emissions := [("electricity", 0)]
    timeseries := [("electricity", ⟨pv_HH, pv_HH⟩)]
    expandable := [("electricity", true)]
    expansion_costs := [("electricity", annuity 1000000 20 0.05)]
    expansion_limits :=
      [("electricity", ⟨ExtQ.fin (np_max pv_HH), ExtQ.inf⟩)] }

/-- The source `wind` (`won1`) of `create_hhes_ar`, as a function of the
sliced wind series `wo_HH`. -/
def won1 (wo_HH : List ℚ) : Source :=
  { name := "wind"
    outputs := ["electricity"]
    region := "HH"
    node_type := "renewable"
    component := "source"
    sector := "power"
    carrier := "wind"
    flow_rates := [("electricity", ⟨ExtQ.fin 0, ExtQ.fin (np_max wo_HH)⟩)]
    flow_costs := [("electricity", 61)]
    flow_emissions := [("electricity", 0.007)]
    timeseries := [("electricity", ⟨wo_HH, wo_HH⟩)]
    expandable := [("electricity", true)]
    expansion_costs := [("electricity", annuity 1750000 20 0.05)]
    expansion_limits :=
      [("electricity", ⟨ExtQ.fin (np_max wo_HH), ExtQ.inf⟩)] }

/-- The storage `electrical storage` (`est`) of `create_hhes_ar`.  The
source passes the misspelled keyword `expendable`. -/
def est : Storage :=
  { name := "electrical storage"
    input := "electricity"
    output := "electricity"
    capacity := 1
    initial_soc := 1
    region := "HH"
    sector := "power"
    carrier := "electricity"
    component := "storage"
    flow_rates := [("electricity", ⟨ExtQ.fin 0, ExtQ.inf⟩)]
    flow_costs := [("electricity", 20)]
    flow_emissions := [("electricity", 0)]
    expendable := [("capacity", true), ("electricity", false)]
    expansion_costs := [("capacity", annuity 1000000 10 0.05)] }

/-- The transformer `power to heat` (`p2h`, P2H Karoline) of
`create_hhes_ar`. -/
def p2h : Transformer :=
  { name := "power to heat"
    inputs := ["electricity"]
    outputs := ["hot_water"]
    conversions := [(("electricity", "hot_water"), 0.99)]
    latitude := 53.55912
    longitude := 9.97148
    region := "HH"
    node_type := "power2heat"
    component := "transformer"
    sector := "heat"
    carrier := "hot_water"
    flow_rates :=
      [ ("electricity", ⟨ExtQ.fin 0, ExtQ.inf⟩)
      , ("hot_water", ⟨ExtQ.fin 0, ExtQ.fin 45⟩) ]
    flow_costs := [("electricity", 0), ("hot_water", 0)]
    flow_emissions := [("electricity", 0), ("hot_water", 0)]
    expandable := [("electricity", false), ("hot_water", true)]
    expansion_costs := [("hot_water", annuity 200000 30 0.05)]
    expansion_limits := [("hot_water", ⟨ExtQ.fin 45, ExtQ.fin 200⟩)] }

/-- The source `imported el` (`imel`) of `create_hhes_ar` (misspelled
keyword `expendable` as in the source). -/
def imel : Source :=
  { name := "imported el"
    outputs := ["electricity"]
    region := "HH"
    node_type := "import"
    component := "source"
    sector := "power"
    carrier := "electricity"
    flow_costs := [("electricity", 999)]
    flow_emissions := [("electricity", 0.401)]
    expendable := [("electricity", true)]
    expansion_costs := [("electricity", 999999999)] }

/-- The source `imported th` (`imth`) of `create_hhes_ar`. -/
def imth : Source :=
  { name := "imported th"
    outputs := ["hot_water"]
    region := "HH"
    node_type := "import"
    component := "source"
    sector := "heat"
    carrier := "hot_water"
    flow_costs := [("hot_water", 999)]
    flow_emissions := [("hot_water", 0.1)]
    expendable := [("hot_water", true)]
    expansion_costs := [("hot_water", 999999999)] }

/-- The sink `demand el` of `create_hhes_ar`, as a function of the sliced
electricity demand series `de_HH`. -/
def demand_el (de_HH : List ℚ) : Sink :=
  { name := "demand el"
    inputs := ["electricity"]
    region := "HH"
    node_type := "demand"
    component := "sink"
    sector := "power"
    carrier := "electricity"
    flow_rates := [("electricity", ⟨ExtQ.fin 0, ExtQ.fin (np_max de_HH)⟩)]
    timeseries := [("electricity", ⟨de_HH, de_HH⟩)] }

/-- The sink `demand th` of `create_hhes_ar`, as a function of the sliced
heat demand series `th_HH`. -/
def demand_th (th_HH : List ℚ) : Sink :=
  { name := "demand th"
    inputs := ["hot_water"]
    region := "HH"
    node_type := "demand"
    component := "sink"
    sector := "heat"
    carrier := "hot_water"
    flow_rates := [("hot_water", ⟨ExtQ.fin 0, ExtQ.fin (np_max th_HH)⟩)]
    timeseries := [("hot_water", ⟨th_HH, th_HH⟩)] }

/-- The sink `excess el` of `create_hhes_ar`. -/
def excess_el : Sink :=
  { name := "excess el"
    inputs := ["electricity"]
    region := "HH"
    node_type := "excess"
    component := "sink"
    sector := "power"
    carrier := "electricity" }

/-- The sink `excess th` of `create_hhes_ar`. -/
def excess_th : Sink :=
  { name := "excess th"
    inputs := ["hot_water"]
    region := "HH"
    node_type := "excess"
    component := "sink"
    sector := "heat"
    carrier := "hot_water" }

/-- The bus `gas pipeline` of `create_hhes_ar`.  Its outputs reference
`"chp2.gas"` although no component named `chp2` is constructed. -/
def gas_pipeline : Bus :=
  { name := "gas pipeline"
    region := "HH"
    node_type := "gas_pipeline"
    component := "bus"
    sector := "coupled"
    carrier := "gas"
    inputs := ["gas supply.gas"]
    outputs := ["gas power plant.gas", "chp2.gas", "heat power plant.gas"] }

/-- The bus `powerline` of `create_hhes_ar`. -/
def powerline : Bus :=
  { name := "powerline"
    region := "HH"
    node_type := "powerline"
    component := "bus"
    sector := "power"
    carrier := "electricity"
    inputs :=
      [ "gas power plant.electricity"
      , "solar.electricity"
      , "wind.electricity"
      , "imported el.electricity"
      , "electrical storage.electricity" ]
    outputs :=
      [ "demand el.electricity"
      , "excess el.electricity"
      , "electrical storage.electricity"
      , "power to heat.electricity" ] }

/-- The bus `district heating pipeline` (`district_heating`) of
`create_hhes_ar`. -/
def district_heating : Bus :=
  { name := "district heating pipeline"
    region := "HH"
    node_type := "district_heating_pipeline"
    component := "bus"
    sector := "heat"
    carrier := "hot_water"
    inputs :=
      [ "gas power plant.hot_water"
      , "imported th.hot_water"
      , "power to heat.hot_water"
      , "heat power plant.hot_water" ]
    outputs := ["demand th.hot_water", "excess th.hot_water"] }

/-- The energy system constructed by `create_hhes_ar` before the dump step:
all four CSV series are sliced with the `periods` parameter
(`values.flatten()[0:periods]`) and the components are assembled as in the
source. -/
def hhes_ar_explicit_es (periods : ℕ) (csv : Csvs) : EnergySystem :=
  let pv_HH := csv.solar.take periods
  let wo_HH := csv.wind.take periods
  let de_HH := csv.el_demand.take periods
  let th_HH := csv.th_demand.take periods
  { uid := some "Energy System Hamburg"
    busses := [gas_pipeline, powerline, district_heating]
    sinks := [demand_el de_HH, demand_th th_HH, excess_el, excess_th]
    sources := [gass, pv1 pv_HH, won1 wo_HH, imel, imth]
    transformers := [chp1, hp1, p2h]
    storages := [est]
    timeframe := ⟨"2019-01-01", periods, "H"⟩
    global_constraints :=
      [ ("name", GCVal.str "2019")
      , ("emissions", GCVal.num ExtQ.inf)
      , ("resources", GCVal.num ExtQ.inf) ] }

/-- Embedding of `create_hhes_ar(periods=24, directory=None, filename=None)`:
construct the system, default the filename to `"hhes.tsf"` when falsy, dump,
and return the system.  The `rng` argument is the ambient global numpy
random generator state, which this builder never samples. -/
def create_hhes_ar (periods : ℕ := 24) (directory : Option String := none)
    (filename : Option String := none) (rng : Rng := fun n => n)
    (csv : Csvs) (w : World) : EnergySystem × World :=
  let _ := rng
  let es := hhes_ar_explicit_es periods csv
  (es, dump es directory (resolve_filename "hhes.tsf" filename) w)

/-- The module-level constant `periods = 100` of `timeseries_comparison.py`. -/
def periods : ℕ := 100

/-- The module-level array `RANDTS = np.random.randint(300, 400, periods)`:
a sample of `periods` values in `[300, 400)` drawn from the global
generator, here abstracted through the generator stream. -/
def RANDTS (rng : Rng) : List ℕ :=
  (List.range periods).map (fun i => 300 + rng i % 100)

/-- The module-level helper `norm` of `timeseries_comparison.py`.  When `t`
is absent it samples `period` values from the global numpy generator
(abstracted by `rng`); the sampled or given series is then multiplied
elementwise by `ones * (1 / maximum)`.  The helper is defined at module
level but never called by the builders. -/
def norm (rng : Rng) (maximum : ℚ) (minimum : ℚ := 0)
    (period : ℕ := periods) (ones : List ℚ := List.replicate periods 1)
    (t : Option (List ℚ) := none) : List ℚ :=
  let f := ones.map (fun x => x * (1 / maximum))
  match t with
  | none =>
    let ts := (List.range period).map (fun i => minimum + (rng i : ℚ))
    List.zipWith (fun a b => a * b) ts f
  | some ts => List.zipWith (fun a b => a * b) ts f

/-- The normalisation `de_HH_norm = np.array(de_HH * (1 / max_de))` computed
by `create_hhes_basic` and never used afterwards. -/
def de_HH_norm (de_HH : List ℚ) : List ℚ :=
  de_HH.map (fun x => x * (1 / np_max de_HH))

/-- The loop of `create_hhes_basic` that fills `pv_norm` from
`pv_norm = np.array(pv_HH)`: it runs over `range(len(pv_HH) - 1)` (the last
index keeps the raw value), skips zero entries, and scales the rest by
`1 / max_pv`. -/
def pv_norm_loop (pv_HH : List ℚ) (max_pv : ℚ) : List ℚ :=
  (List.range pv_HH.length).map (fun i =>
    let x := pv_HH.getD i 0
    if i + 1 < pv_HH.length then
      (if x = 0 then x else x * (1 / max_pv))
    else x)

/-- The bus `powerline` (`BELECTRICITY`) of `create_hhes_basic`. -/
def BELECTRICITY : Bus :=
  { name := "powerline"
    region := "HH"
    sector := "Power"
    node_type := "AC-Bus"
    component := "bus"
    carrier := "electricity"
    inputs :=
      [ "gas power plant.electricity"
      , "imported electricity.electricity"
      , "solar.electricity"
      , "wind.electricity" ]
    outputs := ["demand.electricity", "excess.electricity"] }

/-- The sink `demand` (`DEMAND`) of `create_hhes_basic`, as a function of
its sliced demand series. -/
def DEMAND (de_HH : List ℚ) : Sink :=
  { name := "demand"
    region := "HH"
    node_type := "DEMAND"
    component := "sink"
    carrier := "electricity"
    flow_rates := [("electricity", ⟨ExtQ.fin 0, ExtQ.fin (np_max de_HH)⟩)]
    timeseries := [("electricity", ⟨de_HH, de_HH⟩)]
    inputs := ["electricity"] }

/-- The sink `excess` (`EXCESS`) of `create_hhes_basic`. -/
def EXCESS : Sink :=
  { name := "excess"
    region := "HH"
    node_type := "DEMAND"
    component := "sink"
    carrier := "electricity"
    inputs := ["electricity"] }

/-- The source `wind` (`WIND`) of `create_hhes_basic`, as a function of its
sliced wind series. -/
def WIND (wo_HH : List ℚ) : Source :=
  { name := "wind"
    outputs := ["electricity"]
    region := "HH"
    node_type := "renewable"
    component := "source"
    sector := "power"
    carrier := "wind"
    flow_rates := [("electricity", ⟨ExtQ.fin 0, ExtQ.fin (np_max wo_HH)⟩)]
    flow_costs := [("electricity", 8)]
    flow_emissions := [("electricity", 0.007)]
    timeseries := [("electricity", ⟨wo_HH, wo_HH⟩)]
    expandable := [("electricity", true)]
    expansion_costs := [("electricity", annuity 1750000 20 0.05)]
    expansion_limits :=
      [("electricity", ⟨ExtQ.fin (np_max wo_HH), ExtQ.inf⟩)] }

/-- The source `GAS_SUPPLY` of `create_hhes_basic` (constructed but not
passed to the energy system). -/
def GAS_SUPPLY : Source :=
  { name := "GAS_SUPPLY"
    outputs := ["gas"]
    region := "HH"
    node_type := "GAS_SUPPLY"
    component := "source"
    sector := "coupled"
    carrier := "gas" }

/-- The bus `GAS_PIPELINE` of `create_hhes_basic` (constructed but not
passed to the energy system). -/
def GAS_PIPELINE : Bus :=
  { name := "GAS_PIPELINE"
    region := "HH"
    node_type := "GAS_PIPELINE"
    component := "bus"
    sector := "coupled"
    carrier := "gas"
    inputs := ["GAS_SUPPLY.gas"]
    outputs := ["GAS_POWERPLANT.gas"] }

/-- The source `solar` (`SOLAR`) of `create_hhes_basic`, as a function of
its sliced solar series.  Its `timeseries` uses the raw `pv_HH` values, not
the normalised `pv_norm`. -/
def SOLAR (pv_HH : List ℚ) : Source :=
  { name := "solar"
    outputs := ["electricity"]
    region := "HH"
    sector := "Power"
    carrier := "electricity"
    component := "source"
    node_type := "renewable"
    flow_rates := [("electricity", ⟨ExtQ.fin 0, ExtQ.fin (np_max pv_HH)⟩)]
    flow_costs := [("electricity", 20)]
    flow_emissions := [("electricity", 0)]
    timeseries := [("electricity", ⟨pv_HH, pv_HH⟩)]
    expandable := [("electricity", true)]
    expansion_costs := [("electricity", annuity 10000 20 0.05)]
    expansion_limits := [("electricity", ⟨ExtQ.fin 0, ExtQ.inf⟩)] }

/-- The transformer `gas power plant` (`GAS_POWERPLANT`) of
`create_hhes_basic`. -/
def GAS_POWERPLANT : Transformer :=
  { name := "gas power plant"
    inputs := ["gas"]
    outputs := ["electricity"]
    conversions := [(("gas", "electricity"), 0.4075)]
    region := "HH"
    node_type := "GAS_POWERPLANT"
    component := "transformer"
    sector := "coupled"
    carrier := "gas"
    flow_rates :=
      [ ("gas", ⟨ExtQ.fin 0, ExtQ.inf⟩)
      , ("electricity", ⟨ExtQ.fin 0, ExtQ.fin 1000⟩) ]
    flow_costs := [("gas", 10), ("electricity", 30)]
    flow_emissions := [("gas", 0.2), ("electricity", 0)]
    initial_status := false
    status_inertia := ⟨0, 7⟩
    status_changing_costs := ⟨30, 0⟩
    costs_for_being_active := 0 }

/-- The source `imported electricity` (`ELECTRICITY_IMPORT`) of
`create_hhes_basic`. -/
def ELECTRICITY_IMPORT : Source :=
  { name := "imported electricity"
    outputs := ["electricity"]
    region := "HH"
    node_type := "EL_IMPORT"
    component := "source"
    carrier := "electricity"
    flow_rates := [("electricity", ⟨ExtQ.fin 0, ExtQ.inf⟩)]
    flow_costs := [("electricity", 9999)]
    flow_emissions := [("electricity", 0.45)] }

/-- The energy system constructed by `create_hhes_basic`, parameterised over
the computed `pv_norm` value.  `pv_norm` is received but never used: no
component of the system refers to it.  The slicing mirrors the source
exactly: the demand series is sliced with the module-level `periods`
(`de_HH["Last (MW)"][0:periods]`), the wind series with the module-level
`periods` (`wo_HH.values.flatten()[0:periods]`), but the solar series and
the timeframe use the `period` parameter. -/
def hhes_basic_es_with (pv_norm : List ℚ) (em_limit : ℚ) (period : ℕ)
    (filename : Option String) (csv : Csvs) : EnergySystem :=
  let _ := pv_norm
  let de_HH := csv.el_demand.take periods
  let pv_HH := csv.solar.take period
  let wo_HH := csv.wind.take periods
  { uid := filename
    busses := [BELECTRICITY]
    sinks := [DEMAND de_HH, EXCESS]
    sources := [ELECTRICITY_IMPORT, SOLAR pv_HH, WIND wo_HH]
    transformers := [GAS_POWERPLANT]
    timeframe := ⟨"1/1/2019", period, "H"⟩
    global_constraints :=
      [ ("name", GCVal.str "hhes_basic")
      , ("emissions", GCVal.num (ExtQ.fin em_limit))
      , ("resources", GCVal.num ExtQ.inf) ] }

/-- The energy system constructed by `create_hhes_basic`: the system of
`hhes_basic_es_with` at the `pv_norm` value the function computes (and never
uses). -/
def hhes_basic_explicit_es (em_limit : ℚ) (period : ℕ)
    (filename : Option String) (csv : Csvs) : EnergySystem :=
  hhes_basic_es_with
    (pv_norm_loop (csv.solar.take period) (np_max (csv.solar.take period)))
    em_limit period filename csv

/-- Embedding of
`create_hhes_basic(em_limit=99999999999, period=periods, directory=None,
filename=None)`: construct the system with `uid=filename` (the raw,
possibly `None`, argument), then default the filename to
`"hhes_basic.tsf"` when falsy, dump, and return the system.  The `rng`
argument is the ambient global numpy random generator state, which this
builder never samples. -/
def create_hhes_basic (em_limit : ℚ := 99999999999) (period : ℕ := periods)
    (directory : Option String := none) (filename : Option String := none)
    (rng : Rng := fun n => n) (csv : Csvs) (w : World) :
    EnergySystem × World :=
  let _ := rng
  let es := hhes_basic_explicit_es em_limit period filename csv
  (es, dump es directory (resolve_filename "hhes_basic.tsf" filename) w)

/-! ## Property checkers

The following predicates formalise the properties asserted about the
component records and assembled systems.  The validation and resolution
predicates describe checks the specification attributes to the external
framework's constructors and assembler; the component and system data they
are evaluated on come from the source files. -/

/-- Splits a topology reference `"<component-name>.<commodity>"` at its
first dot (component names and commodity names of this repository contain
no dots). -/
def split_at_dot : List Char → List Char × List Char
  | [] => ([], [])
  | c :: cs =>
    if c = '.' then ([], cs)
    else
      let p := split_at_dot cs
      (c :: p.1, p.2)

/-- The component name and commodity of a bus reference string. -/
def split_ref (s : String) : String × String :=
  let p := split_at_dot s.toList
  (String.mk p.1, String.mk p.2)

/-- The commodities a non-bus component declares: the `outputs` of a source,
the `inputs` of a sink, the `inputs ++ outputs` of a transformer, the
`input`/`output` commodities of a storage; `none` when no component of the
system bears the given name. -/
def declared_commodities (es : EnergySystem) (n : String) :
    Option (List String) :=
  match es.sources.find? (fun s => s.name == n) with
  | some s => some s.outputs
  | none =>
    match es.sinks.find? (fun s => s.name == n) with
    | some s => some s.inputs
    | none =>
      match es.transformers.find? (fun t => t.name == n) with
      | some t => some (t.inputs ++ t.outputs)
      | none =>
        match es.storages.find? (fun st => st.name == n) with
        | some st => some [st.input, st.output]
        | none => none

/-- Modelled from the spec: the topology assembler's resolution check of the
external framework — a bus reference resolves when the named component
exists among the system's constructed components and declares the named
commodity among its inputs/outputs. -/
def resolves (es : EnergySystem) (ref : String) : Bool :=
  let p := split_ref ref
  match declared_commodities es p.1 with
  | some comms => comms.contains p.2
  | none => false

/-- Every reference of every bus of the system resolves. -/
def bus_refs_resolve (es : EnergySystem) : Bool :=
  es.busses.all (fun b => (b.inputs ++ b.outputs).all (resolves es))

/-- Modelled from the spec: the validation tessif's `components.Transformer`
constructor performs — every commodity referenced in a configuration option
must be declared among `inputs`/`outputs` (for `conversions` keys, the first
component among `inputs` and the second among `outputs`); a violation
raises `ConfigurationError` instead of returning a component record. -/
def transformer_options_declared (t : Transformer) : Bool :=
  let declared := t.inputs ++ t.outputs
  t.conversions.all
      (fun c => t.inputs.contains c.1.1 && t.outputs.contains c.1.2) &&
  t.flow_rates.all (fun kv => declared.contains kv.1) &&
  t.flow_costs.all (fun kv => declared.contains kv.1) &&
  t.flow_emissions.all (fun kv => declared.contains kv.1) &&
  t.expandable.all (fun kv => declared.contains kv.1) &&
  t.expansion_costs.all (fun kv => declared.contains kv.1) &&
  t.expansion_limits.all (fun kv => declared.contains kv.1)

/-- The number of time steps of the system's timeframe. -/
def timeframe_len (es : EnergySystem) : ℕ := es.timeframe.periods

/-- The row counts of the `min`/`max` sequences of a `timeseries` option. -/
def mm_lens (ts : List (String × MinMax (List ℚ))) : List ℕ :=
  ts.flatMap (fun kv => [kv.2.min.length, kv.2.max.length])

/-- The row counts of every time series declared on any component of the
system (in this repository only sources and sinks carry a `timeseries`
option). -/
def series_lens (es : EnergySystem) : List ℕ :=
  es.sources.flatMap (fun s => mm_lens s.timeseries) ++
  es.sinks.flatMap (fun s => mm_lens s.timeseries)

/-- Every declared time series of the system has exactly one row per time
step of the timeframe. -/
def timeseries_lengths_ok (es : EnergySystem) : Bool :=
  (series_lens es).all (fun n => n == timeframe_len es)

/-- A concrete CSV input standing for the 2019 Hamburg load-profile files,
which hold (far) more than the module-level `periods = 100` hourly rows:
120 rows per series. -/
def csv_sample : Csvs :=
  { solar := (List.range 120).map (fun n => (n : ℚ))
    wind := (List.range 120).map (fun n => (n : ℚ))
    el_demand := (List.range 120).map (fun n => (n : ℚ))
    th_demand := (List.range 120).map (fun n => (n : ℚ)) }

/-- The store path `create_hhes_ar` dumps to, given its `directory` and
`filename` arguments. -/
def hhes_ar_dump_path (directory filename : Option String) : String :=
  path_join (directory.getD default_dump_dir)
    (resolve_filename "hhes.tsf" filename)

/-- The store path `create_hhes_basic` dumps to, given its `directory` and
`filename` arguments. -/
def hhes_basic_dump_path (directory filename : Option String) : String :=
  path_join (directory.getD default_dump_dir)
    (resolve_filename "hhes_basic.tsf" filename)

/-! ## Theorems -/

/-- Claim C1: the spec demands that component constructors reject, with a
ConfigurationError, any configuration referencing a commodity not declared
among the component's inputs/outputs — yet the transformer `hp1` of
`create_hhes_ar` carries the conversion key `("waste", "hot_water")` while
declaring only `"gas"` as input, fails that validation, and is nonetheless
placed into the assembled energy system (so under the claimed semantics
`create_hhes_ar` could never return).  The sibling transformer `chp1`
passes the same validation. -/
theorem hp1_undeclared_conversion_commodity :
    transformer_options_declared hp1 = false ∧
    hp1.conversions = [(("waste", "hot_water"), 0.96666)] ∧
    hp1.inputs = ["gas"] ∧
    transformer_options_declared chp1 = true ∧
    (hhes_ar_explicit_es 24 csv_sample).transformers = [chp1, hp1, p2h] :=
  ⟨rfl, rfl, rfl, rfl, rfl⟩

/-- Claim C2: the spec demands that every `"<component>.<commodity>"` bus
reference resolve to a constructed component declaring that commodity — yet
the bus `gas pipeline` of `create_hhes_ar` references `"chp2.gas"`, no
component named `chp2` exists in the assembled system, and the system is
nonetheless assembled containing the dangling reference. -/
theorem chp2_reference_dangles :
    "chp2.gas" ∈ gas_pipeline.outputs ∧
    gas_pipeline ∈ (hhes_ar_explicit_es 24 csv_sample).busses ∧
    declared_commodities (hhes_ar_explicit_es 24 csv_sample) "chp2" = none ∧
    resolves (hhes_ar_explicit_es 24 csv_sample) "chp2.gas" = false ∧
    bus_refs_resolve (hhes_ar_explicit_es 24 csv_sample) = false ∧
    bus_refs_resolve zero_costs_explicit_es = true ∧
    bus_refs_resolve (hhes_basic_explicit_es 1 24 none csv_sample) = true :=
  ⟨by decide, by decide, rfl, rfl, rfl, rfl, rfl⟩

/-- Claim C3: the spec demands that every declared time series have exactly
one row per time step of the timeframe — yet `create_hhes_basic` slices its
demand and wind series with the module-level constant `periods = 100` while
building the timeframe from its `period` parameter, so at `period = 24`
(with CSV files of at least 100 rows) the returned system has a 24-step
timeframe and 100-row demand/wind series.  At `period = 100`, and in the
other two builders, the lengths agree. -/
theorem hhes_basic_period_mismatch :
    timeframe_len (hhes_basic_explicit_es 99999999999 24 none csv_sample)
      = 24 ∧
    series_lens (hhes_basic_explicit_es 99999999999 24 none csv_sample)
      = [24, 24, 100, 100, 100, 100] ∧
    timeseries_lengths_ok
      (hhes_basic_explicit_es 99999999999 24 none csv_sample) = false ∧
    timeseries_lengths_ok
      (hhes_basic_explicit_es 99999999999 100 none csv_sample) = true ∧
    timeseries_lengths_ok (hhes_ar_explicit_es 24 csv_sample) = true ∧
    timeseries_lengths_ok zero_costs_explicit_es = true :=
  ⟨rfl, rfl, rfl, rfl, rfl, rfl⟩

/-- Claim C4: `create_zero_costs_es` builds a four-component system (one
emitting source, two emission-free renewable sources, one demand sink) over
a 4-step hourly timeframe and returns a system with exactly 5 nodes (the 4
components plus 1 bus) whose global emissions constraint is stored as 8. -/
theorem zero_costs_scenario :
    (nodes zero_costs_explicit_es).length = 5 ∧
    zero_costs_explicit_es.busses = [electricity_line] ∧
    zero_costs_explicit_es.sources =
      [emitting_source, capped_renewable, uncapped_renewable] ∧
    zero_costs_explicit_es.sinks = [demand] ∧
    zero_costs_explicit_es.transformers = [] ∧
    zero_costs_explicit_es.storages = [] ∧
    emitting_source.flow_emissions = [("electricity", 1)] ∧
    capped_renewable.flow_emissions = [] ∧
    uncapped_renewable.flow_emissions = [] ∧
    zero_costs_explicit_es.timeframe = ⟨"7/13/1990", 4, "H"⟩ ∧
    zero_costs_explicit_es.global_constraints
      = [("emissions", GCVal.num (ExtQ.fin 8))] ∧
    (create_zero_costs_es none none []).1 = zero_costs_explicit_es :=
  ⟨rfl, rfl, rfl, rfl, rfl, rfl, rfl, rfl, rfl, rfl, rfl, rfl⟩

/-- Claim C5: two calls of the same example-building function with
identical inputs (same argument values, identical CSV contents) yield
deep-equal results; in particular the result does not depend on the state
of the global random generator, which the active code paths never sample. -/
theorem example_builders_deterministic (r1 r2 : Rng) (p : ℕ) (em : ℚ)
    (d f : Option String) (csv : Csvs) (w : World) :
    create_hhes_ar p d f r1 csv w = create_hhes_ar p d f r2 csv w ∧
    create_hhes_basic em p d f r1 csv w
      = create_hhes_basic em p d f r2 csv w ∧
    create_zero_costs_es d f w = create_zero_costs_es d f w :=
  ⟨rfl, rfl, rfl⟩

/-- Claim C6: the spec demands a unique label for every constructed system,
also at the `None` defaults — yet `create_hhes_basic` passes its raw
`filename` argument as the uid before defaulting it, so with `filename`
left at `None` the returned system's uid is `None`, not a label; the other
two builders do carry fixed labels. -/
theorem hhes_basic_default_uid_none (em : ℚ) (p : ℕ) (d : Option String)
    (r : Rng) (csv : Csvs) (w : World) :
    (create_hhes_basic em p d none r csv w).1.uid = none ∧
    (create_hhes_ar p d none r csv w).1.uid
      = some "Energy System Hamburg" ∧
    (create_zero_costs_es d none w).1.uid = some "Zero Costs Example" :=
  ⟨rfl, rfl, rfl⟩

/-- Looking up a key in a store after a write under a different key gives
the same answer as before the write. -/
theorem lookup_cons_ne {β : Type} (k : String) (v : β)
    (w : List (String × β)) (q : String) (h : q ≠ k) :
    List.lookup q ((k, v) :: w) = List.lookup q w := by
  have hb : (q == k) = false := beq_eq_false_iff_ne.mpr h
  simp [List.lookup, hb]

/-- Claim C7: each builder returns exactly the system as constructed (the
serialization step does not mutate it), and its only side effect on the
persistent store is its own dump entry — every other path of the store is
unchanged; `create_zero_costs_es` leaves the store entirely unchanged. -/
theorem builders_frame_conditions (p : ℕ) (em : ℚ) (d f : Option String)
    (r : Rng) (csv : Csvs) (w : World) (q : String)
    (h1 : q ≠ hhes_ar_dump_path d f) (h2 : q ≠ hhes_basic_dump_path d f) :
    (create_hhes_ar p d f r csv w).1 = hhes_ar_explicit_es p csv ∧
    List.lookup q (create_hhes_ar p d f r csv w).2 = List.lookup q w ∧
    (create_hhes_basic em p d f r csv w).1
      = hhes_basic_explicit_es em p f csv ∧
    List.lookup q (create_hhes_basic em p d f r csv w).2
      = List.lookup q w ∧
    (create_zero_costs_es d f w).2 = w := by
  refine ⟨rfl, ?_, rfl, ?_, rfl⟩
  · exact lookup_cons_ne (hhes_ar_dump_path d f)
      (hhes_ar_explicit_es p csv) w q h1
  · exact lookup_cons_ne (hhes_basic_dump_path d f)
      (hhes_basic_explicit_es em p f csv) w q h2

/-- Witness for `builders_frame_conditions` at concrete inputs: the probe
path differs from both default dump paths and the frame conditions hold. -/
theorem builders_frame_conditions_witness :
    ("probe" ≠ hhes_ar_dump_path none none) ∧
    ("probe" ≠ hhes_basic_dump_path none none) ∧
    ((create_hhes_ar 2 none none (fun n => n) csv_sample []).1
        = hhes_ar_explicit_es 2 csv_sample ∧
      List.lookup "probe"
          (create_hhes_ar 2 none none (fun n => n) csv_sample []).2
        = List.lookup "probe" ([] : World) ∧
      (create_hhes_basic 1 2 none none (fun n => n) csv_sample []).1
        = hhes_basic_explicit_es 1 2 none csv_sample ∧
      List.lookup "probe"
          (create_hhes_basic 1 2 none none (fun n => n) csv_sample []).2
        = List.lookup "probe" ([] : World) ∧
      (create_zero_costs_es none none []).2 = []) :=
  ⟨by decide, by decide,
    builders_frame_conditions 2 1 none none (fun n => n) csv_sample []
      "probe" (by decide) (by decide)⟩

/-- Claim C8: when the caller gives no filename, the dumping builders write
the constructed system under their example-specific default filenames
(`"hhes.tsf"` for `create_hhes_ar`, `"hhes_basic.tsf"` for
`create_hhes_basic`) in the given or default directory. -/
theorem default_dump_filenames (p : ℕ) (em : ℚ) (d : Option String)
    (r : Rng) (csv : Csvs) (w : World) :
    (create_hhes_ar p d none r csv w).2 =
      (path_join (d.getD default_dump_dir) "hhes.tsf",
        hhes_ar_explicit_es p csv) :: w ∧
    (create_hhes_basic em p d none r csv w).2 =
      (path_join (d.getD default_dump_dir) "hhes_basic.tsf",
        hhes_basic_explicit_es em p none csv) :: w :=
  ⟨rfl, rfl⟩

/-- Claim C9: `create_zero_costs_es` never performs a persistence write —
it returns the in-memory system with the store untouched, and its result is
the same for every value of its `directory` and `filename` parameters. -/
theorem zero_costs_no_dump (d f d2 f2 : Option String) (w : World) :
    create_zero_costs_es d f w = (zero_costs_explicit_es, w) ∧
    create_zero_costs_es d f w = create_zero_costs_es d2 f2 w :=
  ⟨rfl, rfl⟩

/-- Claim C10: the normalised solar series `pv_norm` computed by
`create_hhes_basic` (the loop skipping zero entries and the last element)
is never used: the constructed system is invariant under replacing the
computed `pv_norm` by any other list, and the solar source's timeseries is
built from the raw sliced `pv_HH` values. -/
theorem hhes_basic_independent_of_pv_norm (n1 n2 : List ℚ) (em : ℚ)
    (p : ℕ) (f : Option String) (csv : Csvs) :
    hhes_basic_es_with n1 em p f csv = hhes_basic_es_with n2 em p f csv ∧
    hhes_basic_explicit_es em p f csv =
      hhes_basic_es_with
        (pv_norm_loop (csv.solar.take p) (np_max (csv.solar.take p)))
        em p f csv ∧
    (SOLAR (csv.solar.take p)).timeseries =
      [("electricity", ⟨csv.solar.take p, csv.solar.take p⟩)] ∧
    (hhes_basic_explicit_es em p f csv).sources =
      [ELECTRICITY_IMPORT, SOLAR (csv.solar.take p),
        WIND (csv.wind.take periods)] :=
  ⟨rfl, rfl, rfl, rfl⟩

end Tessif
